import Mathlib

/-!
# Verification of the esp-hal-buzzer tone engine

Shallow embedding of `esp-hal-buzzer/src/lib.rs` (the `Buzzer` driver).

The hardware collaborators (LEDC timer, LEDC channel, GPIO output, blocking
delay, clock registry) are external to the crate.  We model them by
* an event trace recording every collaborator call with its arguments, and
* an environment `Env` of fault-injection oracles deciding whether each
  fallible `configure` call succeeds (the collaborators are fallible per the
  spec; their concrete failure conditions live outside this repository).

A `Buzzer` value owns a timer (its configured state is `timerCfg`), a channel
number, a sound pin, a delay handle and an optional `Volume`.  The channel
number, pins and delay handle carry no observable state of their own, so the
embedded `BuzzerState` keeps exactly the mutable data: the timer configuration
and the volume option.  `mute` takes `&self` in Rust and cannot mutate the
state, so it returns only a trace.  Rust panics (the `unwrap` in `mute`,
reached when the environment fails the channel call) are modelled as `none`.

All machine integers involved (`u32` frequencies, durations, the `u8` level)
are embedded as `Nat`; no arithmetic in the source can overflow (the only
operations are division, right shift, and increments bounded by 14), so `Nat`
and the wrapping types agree on all reachable values.
-/

set_option maxHeartbeats 1000000

namespace EspHalBuzzer

/-- The two GPIO pins the driver drives: the sound (`output_pin`) and the
volume pin. -/
inductive Pin where
  | sound
  | volume
deriving DecidableEq

/-- `VolumeType` from the source: an on/off volume or a duty-based volume. -/
inductive VolumeType where
  | OnOff
  | Duty
deriving DecidableEq

/-- `Volume` from the source: strategy tag and current level (`u8`).
The `volume_pin` field is a handle without observable state and is
represented by `Pin.volume` in the trace. -/
structure Volume where
  volumeType : VolumeType
  level : Nat
deriving DecidableEq

/-- A timer configuration as passed to `timer.configure`: the duty-resolution
bit width and the frequency in Hz.  The clock source is constant
(`LSClockSource::APBClk`) in every call and is omitted. -/
structure TimerConfig where
  duty : Nat
  frequency : Nat
deriving DecidableEq

/-- One collaborator call, with its arguments. -/
inductive Event where
  | timerConfigure (cfg : TimerConfig)
  | channelConfigure (pin : Pin) (dutyPct : Nat)
  | delay (ms : Nat)
  | pinWrite (pin : Pin) (high : Bool)
deriving DecidableEq

/-- The mutable state of a `Buzzer`: whether/how its timer is configured
(`timerCfg = none` iff `!timer.is_configured()`), and the optional volume. -/
structure BuzzerState where
  timerCfg : Option TimerConfig
  volume : Option Volume
deriving DecidableEq

/-- The crate's `Error` enum.  The wrapped collaborator errors carry no data
relevant to the claims, so the `Channel`/`Timer` variants are nullary here. -/
inductive Error where
  | Channel
  | Timer
  | VolumeNotSet
  | VolumeOutOfRange
  | LengthMismatch
deriving DecidableEq

/-- `ToneValue` from the source. -/
structure ToneValue where
  frequency : Nat
  duration : Nat
deriving DecidableEq

/-- Fault-injection environment for the two fallible collaborator calls:
`timerOk cfg` decides whether `timer.configure(cfg)` succeeds, and
`chanOk tcfg pin duty` whether `channel.configure{timer, duty_pct, ..}`
succeeds, given the timer state `tcfg` the channel is bound to. -/
structure Env where
  timerOk : TimerConfig → Bool
  chanOk : Option TimerConfig → Pin → Nat → Bool

/-- The environment in which every collaborator call succeeds. -/
def envOk : Env := ⟨fun _ => true, fun _ _ _ => true⟩

/-- Modelled from the spec: the LEDC channel collaborator
(`channel::configure`, code outside this crate).  Per spec section 6 the
channel contract takes `duty_percent: 0..=100`, and per the safety comment in
`mute` a channel configuration fails only for an invalid duty value or an
unconfigured timer.  So it succeeds exactly when the timer is configured and
the duty is at most 100. -/
def chanOkSpec (timerCfg : Option TimerConfig) (_pin : Pin) (dutyPct : Nat) : Bool :=
  timerCfg.isSome && decide (dutyPct ≤ 100)

/-- The spec-modelled environment: the timer oracle is irrelevant to the
claims that use this environment. -/
def envSpec : Env := ⟨fun _ => true, chanOkSpec⟩

/-- The `while value > 1 && result < 14` loop of `Buzzer::play`
(lines 262-269 of lib.rs): halve `value` and bump `result` while
`value > 1` and `result < 14`. -/
def dutyResLoop (value result : Nat) : Nat :=
  if h : 1 < value ∧ result < 14 then
    dutyResLoop (value / 2) (result + 1)
  else
    result
termination_by value
decreasing_by exact Nat.div_lt_self (by omega) (by omega)

/-- The duty-resolution computation of `Buzzer::play`:
`value = apb_clock / frequency`, then the halving loop from 0. -/
def dutyResolution (clk frequency : Nat) : Nat :=
  dutyResLoop (clk / frequency) 0

/-- `self.volume.as_ref().map_or(50, |v| v.level)` from `Buzzer::play`. -/
def dutyOf (s : BuzzerState) : Nat :=
  match s.volume with
  | none => 50
  | some v => v.level

/-- `Buzzer::mute`: early return when the timer is not configured, otherwise
configure the sound channel at 0% duty and `unwrap` the result (a failed call
panics, modelled as `none`). -/
def mute (env : Env) (s : BuzzerState) : Option (List Event) :=
  match s.timerCfg with
  | none => some []
  | some _ =>
    if env.chanOk s.timerCfg Pin.sound 0 then
      some [Event.channelConfigure Pin.sound 0]
    else
      none

/-- `Buzzer::play`: frequency 0 mutes and returns `Ok`; otherwise configure
the timer at the computed resolution and the requested frequency, then
configure the sound channel at the volume level (default 50), propagating
errors with `?`. -/
def play (env : Env) (clk : Nat) (s : BuzzerState) (frequency : Nat) :
    Option (Except Error Unit × BuzzerState × List Event) :=
  if frequency = 0 then
    (mute env s).map fun tr => (Except.ok (), s, tr)
  else
    let cfg : TimerConfig := ⟨dutyResolution clk frequency, frequency⟩
    if env.timerOk cfg then
      let s1 : BuzzerState := { s with timerCfg := some cfg }
      if env.chanOk s1.timerCfg Pin.sound (dutyOf s) then
        some (Except.ok (), s1,
          [Event.timerConfigure cfg, Event.channelConfigure Pin.sound (dutyOf s)])
      else
        some (Except.error Error.Channel, s1,
          [Event.timerConfigure cfg, Event.channelConfigure Pin.sound (dutyOf s)])
    else
      some (Except.error Error.Timer, s, [Event.timerConfigure cfg])

/-- `Buzzer::set_volume`: `VolumeNotSet` without a volume; the OnOff branch
drives the volume pin (high iff the level is nonzero); the Duty branch stores
levels 0..=99 and configures (lazily, with the dummy 11-bit / 20 kHz config)
the timer and then the channel on the volume pin, special-cases 100 as an
unconditional pin-high, and rejects anything above 100. -/
def set_volume (env : Env) (s : BuzzerState) (level : Nat) :
    Except Error Unit × BuzzerState × List Event :=
  match s.volume with
  | none => (Except.error Error.VolumeNotSet, s, [])
  | some v =>
    match v.volumeType with
    | VolumeType.OnOff =>
      (Except.ok (), s, [Event.pinWrite Pin.volume (level != 0)])
    | VolumeType.Duty =>
      if level ≤ 99 then
        let s1 : BuzzerState := { s with volume := some { v with level := level } }
        if s1.timerCfg = none then
          let cfg : TimerConfig := ⟨11, 20000⟩
          if env.timerOk cfg then
            let s2 : BuzzerState := { s1 with timerCfg := some cfg }
            if env.chanOk s2.timerCfg Pin.volume level then
              (Except.ok (), s2,
                [Event.timerConfigure cfg, Event.channelConfigure Pin.volume level])
            else
              (Except.error Error.Channel, s2,
                [Event.timerConfigure cfg, Event.channelConfigure Pin.volume level])
          else
            (Except.error Error.Timer, s1, [Event.timerConfigure cfg])
        else
          if env.chanOk s1.timerCfg Pin.volume level then
            (Except.ok (), s1, [Event.channelConfigure Pin.volume level])
          else
            (Except.error Error.Channel, s1, [Event.channelConfigure Pin.volume level])
      else if level = 100 then
        (Except.ok (), s, [Event.pinWrite Pin.volume true])
      else
        (Except.error Error.VolumeOutOfRange, s, [])

/-- The loop body of `Buzzer::play_tones` over the zipped
(frequency, timing) pairs, followed by the final `mute`. -/
def playTonesGo (env : Env) (clk : Nat) (s : BuzzerState) :
    List (Nat × Nat) → Option (Except Error Unit × BuzzerState × List Event)
  | [] => (mute env s).map fun tr => (Except.ok (), s, tr)
  | (frequency, timing) :: rest =>
    match play env clk s frequency with
    | none => none
    | some (Except.error e, s1, tr1) => some (Except.error e, s1, tr1)
    | some (Except.ok _, s1, tr1) =>
      match mute env s1 with
      | none => none
      | some trM =>
        (playTonesGo env clk s1 rest).map fun r =>
          (r.1, r.2.1, tr1 ++ Event.delay timing :: (trM ++ r.2.2))

/-- `Buzzer::play_tones`: the two arrays have the same length by their type;
the loop runs over the zipped pairs. -/
def play_tones (env : Env) (clk : Nat) (s : BuzzerState)
    (sequence timings : List Nat) :
    Option (Except Error Unit × BuzzerState × List Event) :=
  playTonesGo env clk s (sequence.zip timings)

/-- The loop body of `Buzzer::play_tones_from_slice` (textually identical to
the `play_tones` loop in the source). -/
def playTonesFromSliceGo (env : Env) (clk : Nat) (s : BuzzerState) :
    List (Nat × Nat) → Option (Except Error Unit × BuzzerState × List Event)
  | [] => (mute env s).map fun tr => (Except.ok (), s, tr)
  | (frequency, timing) :: rest =>
    match play env clk s frequency with
    | none => none
    | some (Except.error e, s1, tr1) => some (Except.error e, s1, tr1)
    | some (Except.ok _, s1, tr1) =>
      match mute env s1 with
      | none => none
      | some trM =>
        (playTonesFromSliceGo env clk s1 rest).map fun r =>
          (r.1, r.2.1, tr1 ++ Event.delay timing :: (trM ++ r.2.2))

/-- `Buzzer::play_tones_from_slice`: length check first, then the loop. -/
def play_tones_from_slice (env : Env) (clk : Nat) (s : BuzzerState)
    (sequence timings : List Nat) :
    Option (Except Error Unit × BuzzerState × List Event) :=
  if sequence.length ≠ timings.length then
    some (Except.error Error.LengthMismatch, s, [])
  else
    playTonesFromSliceGo env clk s (sequence.zip timings)

/-- The loop body of `Buzzer::play_song` over the `ToneValue` list. -/
def playSongGo (env : Env) (clk : Nat) (s : BuzzerState) :
    List ToneValue → Option (Except Error Unit × BuzzerState × List Event)
  | [] => (mute env s).map fun tr => (Except.ok (), s, tr)
  | tone :: rest =>
    match play env clk s tone.frequency with
    | none => none
    | some (Except.error e, s1, tr1) => some (Except.error e, s1, tr1)
    | some (Except.ok _, s1, tr1) =>
      match mute env s1 with
      | none => none
      | some trM =>
        (playSongGo env clk s1 rest).map fun r =>
          (r.1, r.2.1, tr1 ++ Event.delay tone.duration :: (trM ++ r.2.2))

/-- `Buzzer::play_song`. -/
def play_song (env : Env) (clk : Nat) (s : BuzzerState) (tones : List ToneValue) :
    Option (Except Error Unit × BuzzerState × List Event) :=
  playSongGo env clk s tones

/-- `Buzzer::new`: fresh timer (not configured), no volume. -/
def newBuzzer : BuzzerState := { timerCfg := none, volume := none }

/-- `Buzzer::with_volume`: attach a volume with initial level 50. -/
def with_volume (s : BuzzerState) (volumeType : VolumeType) : BuzzerState :=
  { s with volume := some { volumeType := volumeType, level := 50 } }

/-- Modelled from the spec (section 4.5), for the refinement claim about the
sequence players: for each (frequency, duration) pair in order, call `play`;
on failure return that error at once, dropping the rest; otherwise delay for
the duration and call `mute`; after the final pair, one more `mute`. -/
def seqProtocolSpec (env : Env) (clk : Nat) (s : BuzzerState) :
    List (Nat × Nat) → Option (Except Error Unit × BuzzerState × List Event)
  | [] => (mute env s).map fun tr => (Except.ok (), s, tr)
  | (frequency, duration) :: rest =>
    match play env clk s frequency with
    | none => none
    | some (Except.error e, s1, tr1) => some (Except.error e, s1, tr1)
    | some (Except.ok _, s1, tr1) =>
      match mute env s1 with
      | none => none
      | some trM =>
        (seqProtocolSpec env clk s1 rest).map fun r =>
          (r.1, r.2.1, tr1 ++ Event.delay duration :: (trM ++ r.2.2))

/-- Number of `timerConfigure` events in a trace. -/
def countTimerConfigures (tr : List Event) : Nat :=
  tr.countP fun e => match e with
    | Event.timerConfigure _ => true
    | _ => false

/-- Number of `channelConfigure` events in a trace. -/
def countChannelConfigures (tr : List Event) : Nat :=
  tr.countP fun e => match e with
    | Event.channelConfigure _ _ => true
    | _ => false

/-- Number of `delay` events in a trace. -/
def countDelays (tr : List Event) : Nat :=
  tr.countP fun e => match e with
    | Event.delay _ => true
    | _ => false

/-- Trace extractor for a possibly-panicking run. -/
def traceOf : Option (Except Error Unit × BuzzerState × List Event) → List Event
  | some r => r.2.2
  | none => []

/-- A buzzer with an attached Duty volume at the initial level and an
unconfigured timer. -/
def dutyState : BuzzerState := ⟨none, some ⟨VolumeType.Duty, 50⟩⟩

/-- The three-tone song of the end-to-end claim. -/
def song3 : List ToneValue := [⟨100, 100⟩, ⟨200, 100⟩, ⟨300, 100⟩]

/-- The full collaborator-call trace of `play_song` on `song3` from a fresh
buzzer under `envOk`, at platform clock `clk`. -/
def trace3 (clk : Nat) : List Event :=
  [Event.timerConfigure ⟨dutyResolution clk 100, 100⟩,
   Event.channelConfigure Pin.sound 50, Event.delay 100,
   Event.channelConfigure Pin.sound 0,
   Event.timerConfigure ⟨dutyResolution clk 200, 200⟩,
   Event.channelConfigure Pin.sound 50, Event.delay 100,
   Event.channelConfigure Pin.sound 0,
   Event.timerConfigure ⟨dutyResolution clk 300, 300⟩,
   Event.channelConfigure Pin.sound 50, Event.delay 100,
   Event.channelConfigure Pin.sound 0,
   Event.channelConfigure Pin.sound 0]

/-- The public mutating operations of the driver, for invariants quantified
over every public call. -/
inductive Op where
  | opSetVolume (level : Nat)
  | opPlay (frequency : Nat)
  | opMute
  | opPlaySong (tones : List ToneValue)
  | opPlayTones (sequence timings : List Nat)
  | opPlayTonesFromSlice (sequence timings : List Nat)

/-- Run one public operation: the state it leaves behind and the trace it
emits (`none` for a panic; a failed call still leaves its partial state). -/
def execOp (env : Env) (clk : Nat) (s : BuzzerState) :
    Op → Option (BuzzerState × List Event)
  | Op.opSetVolume level =>
    match set_volume env s level with
    | (_, s1, tr) => some (s1, tr)
  | Op.opPlay frequency =>
    (play env clk s frequency).map fun r => (r.2.1, r.2.2)
  | Op.opMute => (mute env s).map fun tr => (s, tr)
  | Op.opPlaySong tones =>
    (play_song env clk s tones).map fun r => (r.2.1, r.2.2)
  | Op.opPlayTones sequence timings =>
    (play_tones env clk s sequence timings).map fun r => (r.2.1, r.2.2)
  | Op.opPlayTonesFromSlice sequence timings =>
    (play_tones_from_slice env clk s sequence timings).map fun r => (r.2.1, r.2.2)

/-! ## Helper lemmas about the duty-resolution loop -/

/-- `Nat.log2` of anything at most 1 is 0. -/
lemma log2_of_le_one {v : Nat} (h : v ≤ 1) : Nat.log2 v = 0 := by
  unfold Nat.log2
  rw [if_neg (by omega)]

/-- The recurrence of `Nat.log2` for arguments at least 2. -/
lemma log2_rec {v : Nat} (h : 2 ≤ v) : Nat.log2 v = Nat.log2 (v / 2) + 1 := by
  conv_lhs => rw [Nat.log2]
  rw [if_pos h]

/-- Characterization of the halving loop of `play`: starting at `result = r`
with `r ≤ 14`, it returns `min 14 (r + log2 value)`. -/
lemma dutyResLoop_eq : ∀ (v r : Nat), r ≤ 14 →
    dutyResLoop v r = min 14 (r + Nat.log2 v) := by
  intro v
  induction v using Nat.strong_induction_on with
  | _ v ih =>
    intro r hr
    rw [dutyResLoop]
    by_cases h1 : 1 < v ∧ r < 14
    · rw [dif_pos h1]
      rw [ih (v / 2) (Nat.div_lt_self (by omega) (by omega)) (r + 1) (by omega)]
      have hlog : Nat.log2 v = Nat.log2 (v / 2) + 1 := log2_rec (by omega)
      rw [hlog]
      omega
    · rw [dif_neg h1]
      rcases Nat.lt_or_ge 1 v with hv | hv
      · have hr14 : r = 14 := by omega
        omega
      · rw [log2_of_le_one hv]
        omega

/-- The duty resolution equals `min 14 (log2 (clk / f))`, unconditionally. -/
lemma dutyResolution_eq (clk f : Nat) :
    dutyResolution clk f = min 14 (Nat.log2 (clk / f)) := by
  unfold dutyResolution
  rw [dutyResLoop_eq (clk / f) 0 (by omega)]
  omega

/-- Evaluation helper: `dutyResolution clk f = k` whenever
`2 ^ k ≤ clk / f < 2 ^ (k + 1)` and `k ≤ 14`. -/
lemma dutyResolution_eq_of (clk f k : Nat) (hk : k ≤ 14)
    (h1 : 2 ^ k ≤ clk / f) (h2 : clk / f < 2 ^ (k + 1)) :
    dutyResolution clk f = k := by
  rw [dutyResolution_eq, Nat.log2_eq_log_two,
    Nat.log_eq_of_pow_le_of_lt_pow h1 h2]
  omega

/-- The bound of the loop: the result never exceeds 14. -/
lemma dutyResolution_le (clk f : Nat) : dutyResolution clk f ≤ 14 := by
  rw [dutyResolution_eq]
  omega

/-! ## C1 -/

/-- C1: for every frequency `f > 0` and platform clock `c`, `play f` derives
its timer configuration from the halving loop `dutyResolution c f` (the first
collaborator call is `timer.configure` with that resolution and frequency);
the loop's result equals `min 14 (log2 (c / f))` whenever `c / f ≥ 1`, and is
always in `[0, 14]`. -/
theorem c1_duty_resolution (c f : Nat) (hf : 0 < f) :
    (∀ env s, (traceOf (play env c s f)).head? =
      some (Event.timerConfigure ⟨dutyResolution c f, f⟩)) ∧
    (1 ≤ c / f → dutyResolution c f = min 14 (Nat.log2 (c / f))) ∧
    dutyResolution c f ≤ 14 := by
  refine ⟨?_, fun _ => dutyResolution_eq c f, dutyResolution_le c f⟩
  intro env s
  unfold play
  rw [if_neg (by omega)]
  by_cases ht : env.timerOk ⟨dutyResolution c f, f⟩ = true
  · rw [if_pos ht]
    by_cases hc : env.chanOk (some ⟨dutyResolution c f, f⟩) Pin.sound (dutyOf s) = true
    · rw [if_pos hc]; rfl
    · rw [if_neg hc]; rfl
  · rw [if_neg ht]; rfl

/-- Witness for C1 at `c = 80000000`, `f = 1000`. -/
theorem c1_duty_resolution_witness :
    0 < 1000 ∧
    ((∀ env s, (traceOf (play env 80000000 s 1000)).head? =
        some (Event.timerConfigure ⟨dutyResolution 80000000 1000, 1000⟩)) ∧
      (1 ≤ 80000000 / 1000 →
        dutyResolution 80000000 1000 = min 14 (Nat.log2 (80000000 / 1000))) ∧
      dutyResolution 80000000 1000 ≤ 14) :=
  ⟨by decide, c1_duty_resolution 80000000 1000 (by decide)⟩

/-! ## C4 -/

/-- C4: `play 0` is `mute` (same state, success, whatever trace `mute`
produces); `mute` on an unconfigured timer performs zero collaborator calls;
`mute` never issues a timer configuration (the timer is untouched and the
state is not mutated at all, `mute` taking the state read-only); and on a
configured timer (with the channel call succeeding) it reconfigures the sound
channel to 0% duty. -/
theorem c4_play_zero_is_mute (env : Env) (clk : Nat) (s : BuzzerState) :
    play env clk s 0 = (mute env s).map (fun tr => (Except.ok (), s, tr)) ∧
    (s.timerCfg = none → mute env s = some []) ∧
    (∀ tr, mute env s = some tr → countTimerConfigures tr = 0) ∧
    (∀ cfg, s.timerCfg = some cfg → env.chanOk s.timerCfg Pin.sound 0 = true →
      mute env s = some [Event.channelConfigure Pin.sound 0]) := by
  refine ⟨?_, ?_, ?_, ?_⟩
  · unfold play
    rw [if_pos rfl]
  · intro h
    simp [mute, h]
  · intro tr htr
    rcases hs : s.timerCfg with _ | cfg
    · simp [mute, hs] at htr
      subst htr
      rfl
    · simp [mute, hs] at htr
      rcases htr with ⟨-, htr⟩
      rw [← htr]
      rfl
  · intro cfg hcfg hok
    simp [mute, hcfg]
    rw [← hcfg]
    exact hok

/-- Witness for C4 at a concrete environment and state. -/
theorem c4_play_zero_is_mute_witness :
    play envOk 80000000 newBuzzer 0 =
      (mute envOk newBuzzer).map (fun tr => (Except.ok (), newBuzzer, tr)) ∧
    (newBuzzer.timerCfg = none → mute envOk newBuzzer = some []) ∧
    (∀ tr, mute envOk newBuzzer = some tr → countTimerConfigures tr = 0) ∧
    (∀ cfg, newBuzzer.timerCfg = some cfg →
      envOk.chanOk newBuzzer.timerCfg Pin.sound 0 = true →
      mute envOk newBuzzer = some [Event.channelConfigure Pin.sound 0]) :=
  c4_play_zero_is_mute envOk 80000000 newBuzzer

/-! ## C7 -/

/-- C7: `play_tones_from_slice` on slices of different lengths fails at once
with `LengthMismatch`, leaves the state unchanged and performs no collaborator
call at all (empty trace). -/
theorem c7_length_mismatch (env : Env) (clk : Nat) (s : BuzzerState)
    (sequence timings : List Nat) (h : sequence.length ≠ timings.length) :
    play_tones_from_slice env clk s sequence timings =
      some (Except.error Error.LengthMismatch, s, []) := by
  unfold play_tones_from_slice
  rw [if_pos h]

/-- Witness for C7 with lengths 2 and 3. -/
theorem c7_length_mismatch_witness :
    ([100, 200] : List Nat).length ≠ ([100, 100, 100] : List Nat).length ∧
    play_tones_from_slice envOk 80000000 newBuzzer [100, 200] [100, 100, 100] =
      some (Except.error Error.LengthMismatch, newBuzzer, []) :=
  ⟨by decide,
    c7_length_mismatch envOk 80000000 newBuzzer [100, 200] [100, 100, 100]
      (by decide)⟩

/-! ## C8 -/

/-- C8: `set_volume` on a buzzer with no volume attached fails with
`VolumeNotSet` for every level of the `u8` range, with no state change and no
collaborator call (empty trace). -/
theorem c8_volume_not_set (env : Env) (s : BuzzerState) (level : Nat)
    (hs : s.volume = none) (_hl : level ≤ 255) :
    set_volume env s level = (Except.error Error.VolumeNotSet, s, []) := by
  simp [set_volume, hs]

/-- Witness for C8 at level 100 on a fresh buzzer. -/
theorem c8_volume_not_set_witness :
    newBuzzer.volume = none ∧ (100 : Nat) ≤ 255 ∧
    set_volume envOk newBuzzer 100 =
      (Except.error Error.VolumeNotSet, newBuzzer, []) :=
  ⟨rfl, by decide, c8_volume_not_set envOk newBuzzer 100 rfl (by decide)⟩

/-! ## C6 -/

/-- C6: with a Duty-strategy volume attached, `set_volume 100` drives the
volume pin high with no channel configuration (and no state change);
`set_volume level` for levels 101..=255 fails with `VolumeOutOfRange` doing
nothing; and `set_volume level` for levels 0..=99 succeeds (when the
collaborator calls succeed) and stores the level. -/
theorem c6_duty_volume_ranges (env : Env) (s : BuzzerState) (l0 : Nat)
    (hv : s.volume = some ⟨VolumeType.Duty, l0⟩) :
    set_volume env s 100 = (Except.ok (), s, [Event.pinWrite Pin.volume true]) ∧
    (∀ level, 101 ≤ level → level ≤ 255 →
      set_volume env s level = (Except.error Error.VolumeOutOfRange, s, [])) ∧
    (∀ level, level ≤ 99 →
      (set_volume envOk s level).1 = Except.ok () ∧
      (set_volume envOk s level).2.1.volume = some ⟨VolumeType.Duty, level⟩) := by
  refine ⟨?_, ?_, ?_⟩
  · simp [set_volume, hv]
  · intro level h1 h2
    simp only [set_volume, hv]
    rw [if_neg (by omega), if_neg (by omega)]
  · intro level hl
    rcases ht : s.timerCfg with _ | cfg
    · simp [set_volume, hv, ht, hl, envOk]
    · simp [set_volume, hv, ht, hl, envOk]

/-- Witness for C6 on a fresh Duty-volume buzzer. -/
theorem c6_duty_volume_ranges_witness :
    (with_volume newBuzzer VolumeType.Duty).volume =
      some ⟨VolumeType.Duty, 50⟩ ∧
    (set_volume envOk (with_volume newBuzzer VolumeType.Duty) 100 =
        (Except.ok (), with_volume newBuzzer VolumeType.Duty,
          [Event.pinWrite Pin.volume true]) ∧
      (∀ level, 101 ≤ level → level ≤ 255 →
        set_volume envOk (with_volume newBuzzer VolumeType.Duty) level =
          (Except.error Error.VolumeOutOfRange,
            with_volume newBuzzer VolumeType.Duty, [])) ∧
      (∀ level, level ≤ 99 →
        (set_volume envOk (with_volume newBuzzer VolumeType.Duty) level).1 =
          Except.ok () ∧
        (set_volume envOk (with_volume newBuzzer VolumeType.Duty) level).2.1.volume =
          some ⟨VolumeType.Duty, level⟩)) :=
  ⟨rfl, c6_duty_volume_ranges envOk (with_volume newBuzzer VolumeType.Duty) 50 rfl⟩

/-! ## C5 -/

/-- At a 40 MHz platform clock, the clock-division logic for the 20 kHz
carrier yields 10 bits (2^10 = 1024 ≤ 2000 < 2048 = 2^11). -/
lemma dutyResolution_40MHz : dutyResolution 40000000 20000 = 10 :=
  dutyResolution_eq_of 40000000 20000 10 (by decide) (by decide) (by decide)

/-- C5 counterexample: the lazy timer initialization of the Duty-strategy
`set_volume` hardcodes the dummy configuration (11 bits, 20 kHz); it does not
run the clock-division logic of `play`, whose result at a 40 MHz platform
clock would be 10 bits, not 11. -/
theorem c5_counterexample :
    (set_volume envOk dutyState 30).2.2.head? =
      some (Event.timerConfigure ⟨11, 20000⟩) ∧
    (⟨11, 20000⟩ : TimerConfig) ≠ ⟨dutyResolution 40000000 20000, 20000⟩ := by
  constructor
  · rfl
  · rw [dutyResolution_40MHz]
    decide

/-- C5 (amended): for a Duty-strategy volume and a level in `[0, 99]`,
`set_volume` configures the shared timer only when it is not already
configured, and in that lazy case configures it to the fixed dummy
configuration of a 20 kHz carrier at 11-bit resolution (the hardcoded
`Duty11Bit`, which agrees with the clock-division logic of `play` only for
platform clocks `c` with `2^11 ≤ c / 20000 < 2^12`, e.g. the default 80 MHz
APB clock); when the timer is already configured, `set_volume` leaves the
timer configuration untouched and only rebinds the channel to the volume pin
at `duty% = level`. -/
theorem c5_set_volume_lazy_timer (s : BuzzerState) (l0 level : Nat)
    (hv : s.volume = some ⟨VolumeType.Duty, l0⟩) (hl : level ≤ 99) :
    (s.timerCfg = none →
      set_volume envOk s level =
        (Except.ok (), ⟨some ⟨11, 20000⟩, some ⟨VolumeType.Duty, level⟩⟩,
          [Event.timerConfigure ⟨11, 20000⟩,
            Event.channelConfigure Pin.volume level])) ∧
    (∀ cfg, s.timerCfg = some cfg →
      set_volume envOk s level =
        (Except.ok (), ⟨some cfg, some ⟨VolumeType.Duty, level⟩⟩,
          [Event.channelConfigure Pin.volume level])) ∧
    dutyResolution 80000000 20000 = 11 := by
  refine ⟨?_, ?_, dutyResolution_eq_of 80000000 20000 11 (by decide) (by decide) (by decide)⟩
  · intro ht
    simp [set_volume, hv, ht, hl, envOk]
  · intro cfg ht
    simp [set_volume, hv, ht, hl, envOk]

/-- Witness for the amended C5: level 30 on the fresh Duty-volume state and
on the same state with a configured timer. -/
theorem c5_set_volume_lazy_timer_witness :
    dutyState.volume = some ⟨VolumeType.Duty, 50⟩ ∧ (30 : Nat) ≤ 99 ∧
    ((dutyState.timerCfg = none →
        set_volume envOk dutyState 30 =
          (Except.ok (), ⟨some ⟨11, 20000⟩, some ⟨VolumeType.Duty, 30⟩⟩,
            [Event.timerConfigure ⟨11, 20000⟩,
              Event.channelConfigure Pin.volume 30])) ∧
      (∀ cfg, dutyState.timerCfg = some cfg →
        set_volume envOk dutyState 30 =
          (Except.ok (), ⟨some cfg, some ⟨VolumeType.Duty, 30⟩⟩,
            [Event.channelConfigure Pin.volume 30])) ∧
      dutyResolution 80000000 20000 = 11) :=
  ⟨rfl, by decide, c5_set_volume_lazy_timer dutyState 50 30 rfl (by decide)⟩

/-! ## C3: the sequence players refine the spec protocol -/

/-- The `play_tones` loop follows the spec's per-pair protocol. -/
lemma playTonesGo_protocol (env : Env) (clk : Nat) :
    ∀ (pairs : List (Nat × Nat)) (s : BuzzerState),
      playTonesGo env clk s pairs = seqProtocolSpec env clk s pairs := by
  intro pairs
  induction pairs with
  | nil => intro s; rfl
  | cons p rest ih =>
    intro s
    obtain ⟨f, d⟩ := p
    simp only [playTonesGo, seqProtocolSpec, ih]

/-- The `play_tones_from_slice` loop follows the spec's per-pair protocol. -/
lemma playTonesFromSliceGo_protocol (env : Env) (clk : Nat) :
    ∀ (pairs : List (Nat × Nat)) (s : BuzzerState),
      playTonesFromSliceGo env clk s pairs = seqProtocolSpec env clk s pairs := by
  intro pairs
  induction pairs with
  | nil => intro s; rfl
  | cons p rest ih =>
    intro s
    obtain ⟨f, d⟩ := p
    simp only [playTonesFromSliceGo, seqProtocolSpec, ih]

/-- The `play_song` loop follows the spec's per-pair protocol on the
(frequency, duration) pairs of its tones. -/
lemma playSongGo_protocol (env : Env) (clk : Nat) :
    ∀ (tones : List ToneValue) (s : BuzzerState),
      playSongGo env clk s tones =
        seqProtocolSpec env clk s (tones.map fun t => (t.frequency, t.duration)) := by
  intro tones
  induction tones with
  | nil => intro s; rfl
  | cons tone rest ih =>
    intro s
    simp only [playSongGo, seqProtocolSpec, List.map, ih]

/-- C3: every sequence entry point equals the spec's per-pair protocol
`seqProtocolSpec` (for the slice pair under the equal-length precondition;
`play_tones` over the zip of its equal-length arrays; `play_song` over its
tones); and the protocol returns a play failure immediately, with exactly the
failing play's trace — no delay, mute, or further pair is processed, so an
aborted sequence is not muted. -/
theorem c3_sequence_protocol (env : Env) (clk : Nat) (s : BuzzerState)
    (sequence timings : List Nat) (tones : List ToneValue)
    (hlen : sequence.length = timings.length) :
    play_tones env clk s sequence timings =
      seqProtocolSpec env clk s (sequence.zip timings) ∧
    play_tones_from_slice env clk s sequence timings =
      seqProtocolSpec env clk s (sequence.zip timings) ∧
    play_song env clk s tones =
      seqProtocolSpec env clk s (tones.map fun t => (t.frequency, t.duration)) ∧
    (∀ f d rest e s1 tr1, play env clk s f = some (Except.error e, s1, tr1) →
      seqProtocolSpec env clk s ((f, d) :: rest) =
        some (Except.error e, s1, tr1)) := by
  refine ⟨playTonesGo_protocol env clk _ s, ?_, playSongGo_protocol env clk tones s, ?_⟩
  · unfold play_tones_from_slice
    rw [if_neg (by omega)]
    exact playTonesFromSliceGo_protocol env clk _ s
  · intro f d rest e s1 tr1 h
    simp only [seqProtocolSpec]
    rw [h]

/-- Witness for C3 on concrete one-element sequences. -/
theorem c3_sequence_protocol_witness :
    ([300] : List Nat).length = ([1000] : List Nat).length ∧
    (play_tones envOk 80000000 newBuzzer [300] [1000] =
        seqProtocolSpec envOk 80000000 newBuzzer ([300].zip [1000]) ∧
      play_tones_from_slice envOk 80000000 newBuzzer [300] [1000] =
        seqProtocolSpec envOk 80000000 newBuzzer ([300].zip [1000]) ∧
      play_song envOk 80000000 newBuzzer ([⟨100, 100⟩] : List ToneValue) =
        seqProtocolSpec envOk 80000000 newBuzzer
          (([⟨100, 100⟩] : List ToneValue).map fun t => (t.frequency, t.duration)) ∧
      (∀ f d rest e s1 tr1,
        play envOk 80000000 newBuzzer f = some (Except.error e, s1, tr1) →
        seqProtocolSpec envOk 80000000 newBuzzer ((f, d) :: rest) =
          some (Except.error e, s1, tr1))) :=
  ⟨rfl, c3_sequence_protocol envOk 80000000 newBuzzer [300] [1000] ([⟨100, 100⟩] : List ToneValue) rfl⟩

/-! ## C2 -/

/-- The full run of `play_song` on the three-tone song from a fresh buzzer:
per tone a timer configure, a channel configure at 50% duty, a delay and a
mute (channel configure at 0%), then one final mute. -/
lemma play_song_song3 (clk : Nat) :
    play_song envOk clk newBuzzer song3 =
      some (Except.ok (), ⟨some ⟨dutyResolution clk 300, 300⟩, none⟩, trace3 clk) := by
  simp [play_song, playSongGo, play, mute, envOk, song3, trace3, newBuzzer, dutyOf]

/-- C2 counterexample: the three-tone `play_song` run issues 7 channel
configurations (one per tone, one mute per tone, one final mute), not 4 — the
claim misses the per-tone mutes issued inside the loop. -/
theorem c2_counterexample :
    countChannelConfigures (traceOf (play_song envOk 80000000 newBuzzer song3)) ≠ 4 := by
  rw [play_song_song3 80000000]
  decide

/-- C2 (amended): on the three-tone song, `play_song` from a fresh buzzer
issues exactly 3 timer reconfigurations, exactly 7 channel reconfigurations
(one per tone at 50% duty, one per-tone mute at 0%, and one final mute at 0%)
and exactly 3 delay calls of 100 ms each, in the strict order timer, channel,
delay, mute per tone; afterwards the channel is left configured at 0% duty. -/
theorem c2_play_song_end_to_end (clk : Nat) :
    play_song envOk clk newBuzzer song3 =
      some (Except.ok (), ⟨some ⟨dutyResolution clk 300, 300⟩, none⟩, trace3 clk) ∧
    countTimerConfigures (trace3 clk) = 3 ∧
    countChannelConfigures (trace3 clk) = 7 ∧
    countDelays (trace3 clk) = 3 ∧
    (trace3 clk).getLast? = some (Event.channelConfigure Pin.sound 0) :=
  ⟨play_song_song3 clk, rfl, rfl, rfl, rfl⟩

/-! ## C10 -/

/-- C10: under the spec-modelled channel collaborator (`envSpec`, see
`chanOkSpec`) `mute` never panics although it unwraps the channel result:
with an unconfigured timer it returns early with no channel interaction, and
with a configured timer the hardcoded 0% duty against that configured timer
cannot fail. -/
theorem c10_mute_never_panics (s : BuzzerState) :
    (mute envSpec s).isSome = true ∧
    (s.timerCfg = none → mute envSpec s = some []) ∧
    (s.timerCfg ≠ none →
      mute envSpec s = some [Event.channelConfigure Pin.sound 0]) := by
  refine ⟨?_, ?_, ?_⟩
  · rcases hs : s.timerCfg with _ | cfg
    · simp [mute, hs]
    · simp [mute, hs, envSpec, chanOkSpec]
  · intro h
    simp [mute, h]
  · intro h
    rcases hs : s.timerCfg with _ | cfg
    · exact absurd hs h
    · simp [mute, hs, envSpec, chanOkSpec]

/-- Witness for C10 on a configured timer (the branch with the unwrap). -/
theorem c10_mute_never_panics_witness :
    (mute envSpec ⟨some ⟨11, 20000⟩, none⟩).isSome = true ∧
    ((⟨some ⟨11, 20000⟩, none⟩ : BuzzerState).timerCfg = none →
      mute envSpec ⟨some ⟨11, 20000⟩, none⟩ = some []) ∧
    ((⟨some ⟨11, 20000⟩, none⟩ : BuzzerState).timerCfg ≠ none →
      mute envSpec ⟨some ⟨11, 20000⟩, none⟩ =
        some [Event.channelConfigure Pin.sound 0]) :=
  c10_mute_never_panics ⟨some ⟨11, 20000⟩, none⟩

/-! ## C9 helper lemmas -/

/-- The default duty only depends on the volume field. -/
lemma dutyOf_congr {s1 s2 : BuzzerState} (h : s1.volume = s2.volume) :
    dutyOf s1 = dutyOf s2 := by
  unfold dutyOf
  rw [h]

/-- Every channel configuration issued by `mute` is on the sound pin at 0%
duty. -/
lemma mute_cc {env : Env} {s : BuzzerState} {tr : List Event}
    (h : mute env s = some tr) :
    ∀ p d, Event.channelConfigure p d ∈ tr → p = Pin.sound ∧ d = 0 := by
  intro p d hm
  unfold mute at h
  split at h
  · injection h with h
    rw [← h] at hm
    simp at hm
  · split at h
    · injection h with h
      rw [← h] at hm
      simp at hm
      exact hm
    · exact absurd h (by simp)

/-- `play` never touches the volume field, and every channel configuration it
issues is on the sound pin, at the stored volume duty or (via the
frequency-0 mute) at 0%. -/
lemma play_volume_cc {env : Env} {clk : Nat} {s : BuzzerState} {f : Nat}
    {r : Except Error Unit} {s1 : BuzzerState} {tr : List Event}
    (h : play env clk s f = some (r, s1, tr)) :
    s1.volume = s.volume ∧
    ∀ p d, Event.channelConfigure p d ∈ tr →
      p = Pin.sound ∧ (d = dutyOf s ∨ d = 0) := by
  simp only [play] at h
  split at h
  · cases hm : mute env s with
    | none => rw [hm] at h; simp at h
    | some tr0 =>
      rw [hm] at h
      simp only [Option.map_some', Option.some.injEq, Prod.mk.injEq] at h
      obtain ⟨-, hs1, htr⟩ := h
      subst hs1
      subst htr
      exact ⟨rfl, fun p d hm2 =>
        ⟨(mute_cc hm p d hm2).1, Or.inr (mute_cc hm p d hm2).2⟩⟩
  · split at h
    · split at h
      · simp only [Option.some.injEq, Prod.mk.injEq] at h
        obtain ⟨-, hs1, htr⟩ := h
        subst hs1
        subst htr
        refine ⟨rfl, ?_⟩
        intro p d hm2
        simp at hm2
        exact ⟨hm2.1, Or.inl hm2.2⟩
      · simp only [Option.some.injEq, Prod.mk.injEq] at h
        obtain ⟨-, hs1, htr⟩ := h
        subst hs1
        subst htr
        refine ⟨rfl, ?_⟩
        intro p d hm2
        simp at hm2
        exact ⟨hm2.1, Or.inl hm2.2⟩
    · simp only [Option.some.injEq, Prod.mk.injEq] at h
      obtain ⟨-, hs1, htr⟩ := h
      subst hs1
      subst htr
      refine ⟨rfl, ?_⟩
      intro p d hm2
      simp at hm2

/-- `set_volume` on an OnOff volume only writes the volume pin: the state is
unchanged and the level is not stored. -/
lemma set_volume_onoff {env : Env} {s : BuzzerState} {l : Nat} (level : Nat)
    (hv : s.volume = some ⟨VolumeType.OnOff, l⟩) :
    set_volume env s level =
      (Except.ok (), s, [Event.pinWrite Pin.volume (level != 0)]) := by
  simp [set_volume, hv]

/-- The spec protocol (hence each sequence player) never touches the volume
field, and every channel configuration it issues is on the sound pin at the
stored duty or 0%. -/
lemma seqProtocol_volume_cc (env : Env) (clk : Nat) :
    ∀ (pairs : List (Nat × Nat)) (s : BuzzerState) (r : Except Error Unit)
      (s1 : BuzzerState) (tr : List Event),
      seqProtocolSpec env clk s pairs = some (r, s1, tr) →
      s1.volume = s.volume ∧
      ∀ p d, Event.channelConfigure p d ∈ tr →
        p = Pin.sound ∧ (d = dutyOf s ∨ d = 0) := by
  intro pairs
  induction pairs with
  | nil =>
    intro s r s1 tr h
    simp only [seqProtocolSpec] at h
    cases hm : mute env s with
    | none => rw [hm] at h; simp at h
    | some tr0 =>
      rw [hm] at h
      simp only [Option.map_some', Option.some.injEq, Prod.mk.injEq] at h
      obtain ⟨-, hs1, htr⟩ := h
      subst hs1
      subst htr
      exact ⟨rfl, fun p d hm2 =>
        ⟨(mute_cc hm p d hm2).1, Or.inr (mute_cc hm p d hm2).2⟩⟩
  | cons pr rest ih =>
    intro s r s1 tr h
    obtain ⟨f, dur⟩ := pr
    simp only [seqProtocolSpec] at h
    cases hp : play env clk s f with
    | none => rw [hp] at h; simp at h
    | some res =>
      obtain ⟨rp, sp, trp⟩ := res
      rw [hp] at h
      cases rp with
      | error e =>
        simp only [Option.some.injEq, Prod.mk.injEq] at h
        obtain ⟨-, hs1, htr⟩ := h
        subst hs1
        subst htr
        exact ⟨(play_volume_cc hp).1, fun p d hm2 => (play_volume_cc hp).2 p d hm2⟩
      | ok u =>
        cases hm : mute env sp with
        | none => simp [hm] at h
        | some trM =>
          simp only [hm] at h
          cases hrest : seqProtocolSpec env clk sp rest with
          | none => simp [hrest] at h
          | some res2 =>
            obtain ⟨r2, s2, tr2⟩ := res2
            simp only [hrest, Option.map_some', Option.some.injEq, Prod.mk.injEq] at h
            obtain ⟨-, hs1, htr⟩ := h
            subst hs1
            subst htr
            obtain ⟨hvolp, hccp⟩ := play_volume_cc hp
            obtain ⟨hvolr, hccr⟩ := ih sp r2 s2 tr2 hrest
            refine ⟨by rw [hvolr, hvolp], ?_⟩
            intro p d hmem
            simp only [List.mem_append, List.mem_cons] at hmem
            rcases hmem with h1 | h2 | h3
            · exact hccp p d h1
            · simp at h2
            · rcases h3 with h4 | h5
              · exact ⟨(mute_cc hm p d h4).1, Or.inr (mute_cc hm p d h4).2⟩
              · have h6 := hccr p d h5
                rw [dutyOf_congr hvolp] at h6
                exact h6

/-- Running the spec protocol from a state with an OnOff volume at level `l`
keeps the volume intact, and (at the initial level 50) every channel
configuration is on the sound pin at 50% or 0%. -/
lemma seqRun_volume_cc {env : Env} {clk : Nat} {pairs : List (Nat × Nat)}
    {s s1 : BuzzerState} {tr : List Event} {l : Nat}
    (hv : s.volume = some ⟨VolumeType.OnOff, l⟩)
    (h : (seqProtocolSpec env clk s pairs).map
        (fun r => (r.2.1, r.2.2)) = some (s1, tr)) :
    s1.volume = some ⟨VolumeType.OnOff, l⟩ ∧
    (l = 50 → ∀ p d, Event.channelConfigure p d ∈ tr →
      p = Pin.sound ∧ (d = 50 ∨ d = 0)) := by
  cases hx : seqProtocolSpec env clk s pairs with
  | none => rw [hx] at h; simp at h
  | some res =>
    obtain ⟨r2, s2, tr2⟩ := res
    rw [hx] at h
    simp only [Option.map_some', Option.some.injEq, Prod.mk.injEq] at h
    obtain ⟨hs1, htr⟩ := h
    subst hs1
    subst htr
    obtain ⟨hvol, hcc⟩ := seqProtocol_volume_cc env clk pairs s r2 s2 tr2 hx
    refine ⟨by rw [hvol, hv], ?_⟩
    intro hl p d hm
    have hduty : dutyOf s = l := by simp [dutyOf, hv]
    have h7 := hcc p d hm
    rw [hduty, hl] at h7
    exact h7

/-! ## C9 -/

/-- C9: with an OnOff-strategy volume attached, no public operation ever
modifies the stored volume (so it stays at the initial 50 set by
`with_volume`), and consequently every channel configuration any public
operation issues from such a state at level 50 targets the sound pin at 50%
duty (a play) or 0% duty (a mute) — the sound duty is always 50% under the
OnOff strategy. -/
theorem c9_onoff_duty_invariant (env : Env) (clk : Nat) :
    (∀ s, (with_volume s VolumeType.OnOff).volume =
      some ⟨VolumeType.OnOff, 50⟩) ∧
    (∀ s l op s1 tr, s.volume = some ⟨VolumeType.OnOff, l⟩ →
      execOp env clk s op = some (s1, tr) →
      s1.volume = some ⟨VolumeType.OnOff, l⟩ ∧
      (l = 50 → ∀ p d, Event.channelConfigure p d ∈ tr →
        p = Pin.sound ∧ (d = 50 ∨ d = 0))) := by
  constructor
  · intro s
    rfl
  · intro s l op s1 tr hv h
    cases op with
    | opSetVolume level =>
      simp only [execOp] at h
      rw [set_volume_onoff level hv] at h
      simp only [Option.some.injEq, Prod.mk.injEq] at h
      obtain ⟨hs1, htr⟩ := h
      subst hs1
      subst htr
      refine ⟨hv, ?_⟩
      intro _ p d hm
      simp at hm
    | opPlay f =>
      simp only [execOp] at h
      cases hp : play env clk s f with
      | none => rw [hp] at h; simp at h
      | some res =>
        obtain ⟨rp, sp, trp⟩ := res
        rw [hp] at h
        simp only [Option.map_some', Option.some.injEq, Prod.mk.injEq] at h
        obtain ⟨hs1, htr⟩ := h
        subst hs1
        subst htr
        obtain ⟨hvol, hcc⟩ := play_volume_cc hp
        refine ⟨by rw [hvol, hv], ?_⟩
        intro hl p d hm
        have hduty : dutyOf s = l := by simp [dutyOf, hv]
        have h7 := hcc p d hm
        rw [hduty, hl] at h7
        exact h7
    | opMute =>
      simp only [execOp] at h
      cases hm : mute env s with
      | none => rw [hm] at h; simp at h
      | some tr0 =>
        rw [hm] at h
        simp only [Option.map_some', Option.some.injEq, Prod.mk.injEq] at h
        obtain ⟨hs1, htr⟩ := h
        subst hs1
        subst htr
        exact ⟨hv, fun _ p d hmem =>
          ⟨(mute_cc hm p d hmem).1, Or.inr (mute_cc hm p d hmem).2⟩⟩
    | opPlaySong tones =>
      simp only [execOp, play_song] at h
      rw [playSongGo_protocol env clk tones s] at h
      exact seqRun_volume_cc hv h
    | opPlayTones sequence timings =>
      simp only [execOp, play_tones] at h
      rw [playTonesGo_protocol env clk (sequence.zip timings) s] at h
      exact seqRun_volume_cc hv h
    | opPlayTonesFromSlice sequence timings =>
      simp only [execOp, play_tones_from_slice] at h
      split at h
      · simp only [Option.map_some', Option.some.injEq, Prod.mk.injEq] at h
        obtain ⟨hs1, htr⟩ := h
        subst hs1
        subst htr
        refine ⟨hv, ?_⟩
        intro _ p d hm
        simp at hm
      · rw [playTonesFromSliceGo_protocol env clk (sequence.zip timings) s] at h
        exact seqRun_volume_cc hv h

/-- Witness for C9 at a concrete environment and clock. -/
theorem c9_onoff_duty_invariant_witness :
    (∀ s, (with_volume s VolumeType.OnOff).volume =
      some ⟨VolumeType.OnOff, 50⟩) ∧
    (∀ s l op s1 tr, s.volume = some ⟨VolumeType.OnOff, l⟩ →
      execOp envOk 80000000 s op = some (s1, tr) →
      s1.volume = some ⟨VolumeType.OnOff, l⟩ ∧
      (l = 50 → ∀ p d, Event.channelConfigure p d ∈ tr →
        p = Pin.sound ∧ (d = 50 ∨ d = 0))) :=
  c9_onoff_duty_invariant envOk 80000000

end EspHalBuzzer
